import Mathlib

/-!
# `su` (su/su.c): identity resolution, authorisation gate, identity switch, exec dispatch

A shallow embedding of `main` of `su/su.c`.

The program is a straight line of calls into the host system.  The host is an
`Env` of oracles: what `getpwnam`, `getuid`, `setgid`, `setuid`, the `exec*p`
family and `strerror` answer, and what reporting a diagnostic leaves in
`errno`.  A run of `main` is the list of side-effecting calls it makes, in
order (`Event`), and how it ends (`Outcome`): `main` returns a status, or a
successful exec replaces the process image.

Machine integers: `int` is 32 bits, two's complement; `uid_t` and `gid_t` are
unsigned 32 bits.  The conversions between them are explicit (`toInt`,
`toUnsigned`).

Conventions taken from the C library contracts, not from this repository:
* an `exec*` call comes back only when it failed, and then it returned `-1`
  with `errno` set, so the test `exec*(...) < 0` holds whenever control comes
  back (`ExecResult`);
* the error codes of `errno.h` are positive, and no library call sets `errno` to 0
  (`Errno`);
* `atoi(s)` is `(int) strtol(s, NULL, 10)`, with `long` of 32 bits as on the
  platform the repository targets.
-/

namespace Su

/-! ## Machine integers -/

/-- Conversion of an integer value to the C type `int` (32 bits, wrapping). -/
def toInt (x : Int) : Int := (x + 2147483648) % 4294967296 - 2147483648

/-- Conversion of an `int` to `uid_t` / `gid_t` (unsigned 32 bits), as happens
at a call `setgid(gid)` with `int gid`. -/
def toUnsigned (x : Int) : Nat := (x % 4294967296).toNat

/-- The type `uid_t` (and `gid_t`): unsigned 32 bits. -/
abbrev uid_t := Fin 4294967296

/-- The fields of `struct passwd` that `main` reads. -/
structure Passwd where
  pw_uid : uid_t
  pw_gid : uid_t

/-- Modelled from the spec: `AID_ROOT` of `private/android_filesystem_config.h`,
a header that is not among the sources; the superuser identity. -/
def AID_ROOT : Int := 0

/-- Modelled from the spec: `AID_SHELL` of `private/android_filesystem_config.h`,
a header that is not among the sources; the unprivileged shell account. -/
def AID_SHELL : Int := 2000

/-! ## `atoi` -/

/-- The C-locale `isspace`: space, `\t`, `\n`, `\v`, `\f`, `\r`. -/
def isspace (c : Char) : Bool :=
  c.toNat = 32 || (9 ≤ c.toNat && c.toNat ≤ 13)

/-- The C-locale `isdigit`. -/
def isdigit (c : Char) : Bool :=
  48 ≤ c.toNat && c.toNat ≤ 57

/-- The leading white space `strtol` skips. -/
def skipSpace : List Char → List Char
  | [] => []
  | c :: cs => if isspace c then skipSpace cs else c :: cs

/-- The digit loop of `strtol` in base 10: accumulate while the next character
is a digit, stop at the first other character or at the end of the string. -/
def strtolDigits : List Char → Nat → Nat
  | [], acc => acc
  | c :: cs, acc => if isdigit c then strtolDigits cs (acc * 10 + (c.toNat - 48)) else acc

/-- Value of `strtol(s, NULL, 10)` with a 32-bit `long`: white space, an
optional sign, the digits; a value out of range is clamped to `LONG_MIN` /
`LONG_MAX`.  No digit at all gives 0. -/
def strtol (s : List Char) : Int :=
  match skipSpace s with
  | [] => 0
  | c :: cs =>
    if c = '-' then max (-2147483648) (-(strtolDigits cs 0 : Int))
    else if c = '+' then min 2147483647 (strtolDigits cs 0 : Int)
    else min 2147483647 (strtolDigits (c :: cs) 0 : Int)

/-- The function `atoi`: `(int) strtol(s, NULL, 10)`. -/
def atoi (s : String) : Int := toInt (strtol s.data)

/-! ## The host system and the runs of `main` -/

/-- An error code as a library call leaves it in `errno`: a positive `int`. -/
abbrev Errno := { e : Int // 0 < e }

/-- What an `exec*` call does: it replaces the process image and never comes
back, or it returns `-1` with `errno` set. -/
inductive ExecResult where
  | replaced
  | failed (errno : Errno)
  deriving DecidableEq, Repr

/-- The host system as `main` sees it. -/
structure Env where
  /-- The passwd lookup: `none` is the null pointer. -/
  getpwnam : String → Option Passwd
  /-- The real uid of the caller. -/
  getuid : uid_t
  /-- Return value of `setgid` (0 on success). -/
  setgid : Nat → Int
  /-- Return value of `setuid` (0 on success). -/
  setuid : Nat → Int
  /-- The calls `execlp(file, a0, ..., NULL)` and `execvp(file, argv)`: search
  the executable path for `file` and run it with the argument vector. -/
  execp : String → List String → ExecResult
  /-- The description of an error code. -/
  strerror : Int → String
  /-- What reporting a diagnostic (the calls `strerror` and `fprintf(stderr, ...)` with
  the text written) does to `errno`: `none` when the calls leave it as it was, `some e`
  when they set it to `e`, as a write to a closed stderr does. -/
  errnoAfterReport : String → Option Errno

/-- The side-effecting calls of a run. -/
inductive Event where
  | setgid (gid : Nat)
  | setuid (uid : Nat)
  | stderr (msg : String)
  | exec (file : String) (args : List String)
  deriving DecidableEq, Repr

/-- How a run ends: `main` returns a status, or an exec succeeded. -/
inductive Outcome where
  | returned (status : Int)
  | replaced
  deriving DecidableEq, Repr

/-- A run of `main`: its calls in order and its end. -/
structure Run where
  trace : List Event
  outcome : Outcome
  deriving DecidableEq, Repr

/-- The character `s[i]` of a C string: the terminating NUL at its end. -/
def cstrAt (s : String) (i : Nat) : Char := s.data.getD i (Char.ofNat 0)

/-- The array `argv` of `main`: the `argc` arguments, then `argv[argc] == NULL`. -/
def argvArr (argv : List String) : List (Option String) := argv.map some ++ [none]

/-- The argument vector an `exec*` call reads from a pointer array: the
entries before the first null pointer. -/
def cvec : List (Option String) → List String
  | some s :: rest => s :: cvec rest
  | _ => []

/-- The call `memcpy(dst, src, n)` on pointer arrays, `n` counted in entries. -/
def memcpy (dst src : List (Option String)) (n : Nat) : List (Option String) :=
  src.take n ++ dst.drop n

/-- The array `exec_args` of lines 98-100: `argc - first_arg + 1` entries, zeroed
by `memset`, then filled by `memcpy` from `&argv[first_arg]`, with `first_arg = 2`. -/
def exec_args (argv : List String) : List (Option String) :=
  memcpy (List.replicate (argv.length - 2 + 1) none) ((argvArr argv).drop 2)
    (argv.length - 2 + 1)

/-- The array `argv + 1` after `argv[1] = argv[0]` (lines 89-90). -/
def shArgv (argv : List String) : List (Option String) :=
  ((argvArr argv).set 1 ((argvArr argv).getD 0 none)).drop 1

/-- Lines 47-58 of `main`: the identity `(uid, gid)` the token resolves to. -/
def resolve (env : Env) (argv : List String) : Int × Int :=
  if h : argv.length < 2 then (0, 0)
  else
    match env.getpwnam argv[1] with
    | none => (atoi argv[1], atoi argv[1])
    | some pw => (toInt (pw.pw_uid.val : Int), toInt (pw.pw_gid.val : Int))

/-- The value of `errno` at `return -errno`, after the diagnostic `text` was reported
with `errno` equal to `e`. -/
def errnoAtReturn (env : Env) (text : String) (e : Errno) : Errno :=
  match env.errnoAfterReport text with
  | none => e
  | some e2 => e2

/-- An exec attempt of lines 74-78, 90-94 and 101-105: the call, and when it
comes back the diagnostic `msg errno`, built from `errno` as the exec left it, and then
the return of `-errno`, read after the diagnostic was reported. -/
def execOrReport (env : Env) (pre : List Event) (file : String) (args : List String)
    (msg : Int → String) : Run :=
  match env.execp file args with
  | .replaced => ⟨pre ++ [.exec file args], .replaced⟩
  | .failed e =>
    ⟨pre ++ [.exec file args, .stderr (msg e.val)],
      .returned (-(errnoAtReturn env (msg e.val) e).val)⟩

/-- Lines 72-113 of `main`: the exec dispatch, after the calls `pre`. -/
def dispatch (env : Env) (pre : List Event) (argv : List String) : Run :=
  if h3 : argv.length = 3 then
    execOrReport env pre argv[2] [argv[2]]
      (fun e => "su: exec failed for " ++ argv[2] ++ " Error:" ++ env.strerror e ++ "\n")
  else if h4 : argv.length > 3 then
    if cstrAt argv[2] 0 = '-' ∧ cstrAt argv[2] 1 = 'c' then
      execOrReport env pre "/system/bin/sh" (cvec (shArgv argv))
        (fun e => "su: exec(sh) failed for " ++ argv[2] ++ " Error:" ++ env.strerror e ++ "\n")
    else
      execOrReport env pre argv[2] (cvec (exec_args argv))
        (fun e => "su: exec failed for " ++ argv[2] ++ " Error:" ++ env.strerror e ++ "\n")
  else
    match env.execp "/system/bin/sh" ["sh"] with
    | .replaced => ⟨pre ++ [.exec "/system/bin/sh" ["sh"]], .replaced⟩
    | .failed _ =>
      ⟨pre ++ [.exec "/system/bin/sh" ["sh"], .stderr "su: exec failed\n"], .returned 1⟩

/-- The function `main` of `su/su.c`; `argc` is the length of `argv`. -/
def main (env : Env) (argv : List String) : Run :=
  let uid := (resolve env argv).1
  let gid := (resolve env argv).2
  let myuid := toInt (env.getuid.val : Int)
  if myuid ≠ AID_ROOT ∧ myuid ≠ AID_SHELL then
    ⟨[.stderr ("su: uid " ++ toString myuid ++ " not allowed to su\n")], .returned 1⟩
  else if env.setgid (toUnsigned gid) ≠ 0 then
    ⟨[.setgid (toUnsigned gid), .stderr "su: permission denied\n"], .returned 1⟩
  else if env.setuid (toUnsigned uid) ≠ 0 then
    ⟨[.setgid (toUnsigned gid), .setuid (toUnsigned uid), .stderr "su: permission denied\n"],
      .returned 1⟩
  else
    dispatch env [.setgid (toUnsigned gid), .setuid (toUnsigned uid)] argv

/-! ## Reading a trace -/

/-- Whether a call is a `setgid`. -/
def Event.isSetgid : Event → Bool
  | .setgid _ => true
  | _ => false

/-- Whether a call is a `setuid`. -/
def Event.isSetuid : Event → Bool
  | .setuid _ => true
  | _ => false

/-- Whether a call is an exec attempt. -/
def Event.isExec : Event → Bool
  | .exec _ _ => true
  | _ => false

/-- The exec attempts of a run, in order. -/
def Run.execs (r : Run) : List Event := r.trace.filter Event.isExec

/-- The caller is in the allowed set: its uid is `AID_ROOT` or `AID_SHELL`. -/
def Allowed (env : Env) : Prop :=
  (env.getuid.val : Int) = AID_ROOT ∨ (env.getuid.val : Int) = AID_SHELL

instance (env : Env) : Decidable (Allowed env) :=
  inferInstanceAs
    (Decidable ((env.getuid.val : Int) = AID_ROOT ∨ (env.getuid.val : Int) = AID_SHELL))

/-- The token `s` begins with the two characters `-` and `c`. -/
def BeginsDashC (s : String) : Prop := ∃ t, s.data = '-' :: 'c' :: t

/-- Both calls of the identity switch report success for the resolved identity. -/
def SwitchOk (env : Env) (argv : List String) : Prop :=
  env.setgid (toUnsigned (resolve env argv).2) = 0 ∧
    env.setuid (toUnsigned (resolve env argv).1) = 0

instance (env : Env) (argv : List String) : Decidable (SwitchOk env argv) :=
  inferInstanceAs (Decidable (env.setgid (toUnsigned (resolve env argv).2) = 0 ∧
    env.setuid (toUnsigned (resolve env argv).1) = 0))

/-! ## Tokens, as the specification describes them -/

/-- Value of a decimal digit character. -/
def digitValue (c : Char) : Nat := c.toNat - 48

/-- The number a string of decimal digits denotes, most significant digit first. -/
def decimalValue (ds : List Char) : Nat := Nat.ofDigits 10 (ds.reverse.map digitValue)

/-- The token `s` is a base-10 numeral of the integer `N`: an optional sign, then one
or more decimal digits. -/
def IsNumeral (s : String) (N : Int) : Prop :=
  ∃ ds : List Char, ds ≠ [] ∧ (∀ c ∈ ds, c.isDigit = true) ∧
    ((s.data = ds ∧ N = decimalValue ds) ∨ (s.data = '+' :: ds ∧ N = decimalValue ds) ∨
      (s.data = '-' :: ds ∧ N = -(decimalValue ds : Int)))

/-- What is left of a token after its leading white space and one optional sign. -/
def afterSpaceAndSign (s : List Char) : List Char :=
  match s.dropWhile isspace with
  | [] => []
  | c :: cs => if c = '-' ∨ c = '+' then cs else c :: cs

/-- The token does not begin, after optional white space and sign, with a decimal digit. -/
def NoLeadingDigit (s : String) : Prop :=
  ∀ c ∈ (afterSpaceAndSign s.data).head?, c.isDigit = false

instance (s : String) : Decidable (NoLeadingDigit s) :=
  inferInstanceAs (Decidable (∀ c ∈ (afterSpaceAndSign s.data).head?, c.isDigit = false))

/-! ## Sample hosts -/

/-- A host where root calls, no token is an account name, the switch succeeds and every
exec succeeds. -/
def hostRoot : Env where
  getpwnam := fun _ => none
  getuid := 0
  setgid := fun _ => 0
  setuid := fun _ => 0
  execp := fun _ _ => .replaced
  strerror := fun _ => "Unknown error"
  errnoAfterReport := fun _ => none

/-- A host where the shell account calls and every exec fails with error code 2. -/
def hostNoFile : Env where
  getpwnam := fun _ => none
  getuid := 2000
  setgid := fun _ => 0
  setuid := fun _ => 0
  execp := fun _ _ => .failed ⟨2, by decide⟩
  strerror := fun e => if e = 2 then "No such file or directory" else "Unknown error"
  errnoAfterReport := fun _ => none

/-- A host where the shell account calls with stderr closed: every exec fails with error
code 2, and every write of a diagnostic fails and sets `errno` to 9. -/
def hostClosedStderr : Env where
  getpwnam := fun _ => none
  getuid := 2000
  setgid := fun _ => 0
  setuid := fun _ => 0
  execp := fun _ _ => .failed ⟨2, by decide⟩
  strerror := fun e => if e = 2 then "No such file or directory" else "Unknown error"
  errnoAfterReport := fun _ => some ⟨9, by decide⟩

/-- A host where the shell account calls and `setgid` is refused, as when the binary
runs without the privilege to change identity. -/
def hostNoSetgid : Env where
  getpwnam := fun _ => none
  getuid := 2000
  setgid := fun _ => -1
  setuid := fun _ => 0
  execp := fun _ _ => .replaced
  strerror := fun _ => "Unknown error"
  errnoAfterReport := fun _ => none

/-- A host whose account directory has an account named `1000`, with uid 5 and gid 6. -/
def hostNumericAccount : Env where
  getpwnam := fun name => if name = "1000" then some ⟨5, 6⟩ else none
  getuid := 0
  setgid := fun _ => 0
  setuid := fun _ => 0
  execp := fun _ _ => .replaced
  strerror := fun _ => "Unknown error"
  errnoAfterReport := fun _ => none

/-- A host whose account directory has the account `system`, with uid 1000 and gid 1000,
and an account named `42`, with uid 10007 and gid 10008. -/
def hostAccounts : Env where
  getpwnam := fun name =>
    if name = "system" then some ⟨1000, 1000⟩
    else if name = "42" then some ⟨10007, 10008⟩ else none
  getuid := 2000
  setgid := fun _ => 0
  setuid := fun _ => 0
  execp := fun _ _ => .replaced
  strerror := fun _ => "Unknown error"
  errnoAfterReport := fun _ => none

/-! ## Integer conversions -/

theorem toInt_uid_eq_root (u : uid_t) : toInt (u.val : Int) = AID_ROOT ↔ u.val = 0 := by
  have := u.isLt
  unfold toInt AID_ROOT
  omega

theorem toInt_uid_eq_shell (u : uid_t) : toInt (u.val : Int) = AID_SHELL ↔ u.val = 2000 := by
  have := u.isLt
  unfold toInt AID_SHELL
  omega

theorem toUnsigned_toInt (u : uid_t) : toUnsigned (toInt (u.val : Int)) = u.val := by
  have := u.isLt
  unfold toUnsigned toInt
  omega

theorem toUnsigned_of_nonneg (n : Int) (h0 : 0 ≤ n) (h1 : n < 4294967296) :
    (toUnsigned n : Int) = n := by
  unfold toUnsigned
  omega

theorem toInt_of_range (n : Int) (h0 : -2147483648 ≤ n) (h1 : n ≤ 2147483647) :
    toInt n = n := by
  unfold toInt
  omega

/-! ## The gate and the switch -/

theorem gate_iff (env : Env) :
    (toInt (env.getuid.val : Int) ≠ AID_ROOT ∧ toInt (env.getuid.val : Int) ≠ AID_SHELL) ↔
      ¬ Allowed env := by
  have := env.getuid.isLt
  unfold Allowed toInt AID_ROOT AID_SHELL
  omega

theorem main_denied (env : Env) (argv : List String) (h : ¬ Allowed env) :
    main env argv =
      ⟨[.stderr ("su: uid " ++ toString (toInt (env.getuid.val : Int)) ++ " not allowed to su\n")],
        .returned 1⟩ := by
  unfold main
  exact if_pos ((gate_iff env).mpr h)

theorem main_allowed (env : Env) (argv : List String) (h : Allowed env) :
    main env argv =
      if env.setgid (toUnsigned (resolve env argv).2) ≠ 0 then
        ⟨[.setgid (toUnsigned (resolve env argv).2), .stderr "su: permission denied\n"],
          .returned 1⟩
      else if env.setuid (toUnsigned (resolve env argv).1) ≠ 0 then
        ⟨[.setgid (toUnsigned (resolve env argv).2), .setuid (toUnsigned (resolve env argv).1),
            .stderr "su: permission denied\n"], .returned 1⟩
      else
        dispatch env [.setgid (toUnsigned (resolve env argv).2),
          .setuid (toUnsigned (resolve env argv).1)] argv := by
  have hg : ¬ (toInt (env.getuid.val : Int) ≠ AID_ROOT ∧
      toInt (env.getuid.val : Int) ≠ AID_SHELL) := fun hc => (gate_iff env).mp hc h
  unfold main
  exact if_neg hg

theorem main_switched (env : Env) (argv : List String) (h : Allowed env)
    (hs : SwitchOk env argv) :
    main env argv = dispatch env [.setgid (toUnsigned (resolve env argv).2),
      .setuid (toUnsigned (resolve env argv).1)] argv := by
  rw [main_allowed env argv h]
  simp [hs.1, hs.2]

/-! ## Pointer arrays -/

theorem cvec_terminated (l : List String) (r : List (Option String)) :
    cvec (l.map some ++ none :: r) = l := by
  induction l with
  | nil => simp [cvec]
  | cons a l ih => simp [cvec, ih]

theorem argvArr_drop (argv : List String) (n : Nat) (h : n ≤ argv.length) :
    (argvArr argv).drop n = (argv.drop n).map some ++ [none] := by
  unfold argvArr
  rw [List.drop_append_of_le_length (by simpa using h), List.map_drop]

theorem exec_args_eq (argv : List String) (h : 2 ≤ argv.length) :
    exec_args argv = (argv.drop 2).map some ++ [none] := by
  unfold exec_args memcpy
  rw [argvArr_drop argv 2 h]
  have hl : ((argv.drop 2).map some ++ [none]).length = argv.length - 2 + 1 := by simp
  have ht : ((argv.drop 2).map some ++ [none]).take (argv.length - 2 + 1) =
      (argv.drop 2).map some ++ [none] := List.take_of_length_le (by omega)
  have hd : (List.replicate (argv.length - 2 + 1) (none : Option String)).drop
      (argv.length - 2 + 1) = [] := List.drop_of_length_le (by simp)
  rw [ht, hd, List.append_nil]

theorem shArgv_eq (argv : List String) (h : 2 ≤ argv.length) :
    shArgv argv = (argv[0] :: argv.drop 2).map some ++ [none] := by
  match argv, h with
  | a :: b :: rest, _ => simp [shArgv, argvArr]

theorem cstr_beginsDashC (s : String) :
    (cstrAt s 0 = '-' ∧ cstrAt s 1 = 'c') ↔ BeginsDashC s := by
  unfold cstrAt BeginsDashC
  match hs : s.data with
  | [] => simp
  | [a] => simp
  | a :: b :: t => simp

theorem drop_two_of_length_three (argv : List String) (h : argv.length = 3) :
    argv.drop 2 = [argv[2]] := by
  match argv, h with
  | [a, b, c], _ => rfl

/-! ## The exec dispatch -/

theorem execOrReport_execs (env : Env) (pre : List Event) (file : String) (args : List String)
    (msg : Int → String) :
    (execOrReport env pre file args msg).execs = pre.filter Event.isExec ++ [.exec file args] := by
  unfold execOrReport Run.execs
  cases env.execp file args <;> simp [Event.isExec]

theorem dispatch_direct (env : Env) (pre : List Event) (argv : List String)
    (h3 : 3 ≤ argv.length) (hc : ¬ (argv.length > 3 ∧ BeginsDashC argv[2])) :
    dispatch env pre argv = execOrReport env pre argv[2] (argv.drop 2)
      (fun e => "su: exec failed for " ++ argv[2] ++ " Error:" ++ env.strerror e ++ "\n") := by
  unfold dispatch
  by_cases h : argv.length = 3
  · rw [dif_pos h, drop_two_of_length_three argv h]
  · have h4 : argv.length > 3 := by omega
    have hc2 : ¬ (cstrAt argv[2] 0 = '-' ∧ cstrAt argv[2] 1 = 'c') :=
      fun hd => hc ⟨h4, (cstr_beginsDashC _).mp hd⟩
    rw [dif_neg h, dif_pos h4, if_neg hc2, exec_args_eq argv (by omega),
      cvec_terminated]

theorem dispatch_dashC (env : Env) (pre : List Event) (argv : List String)
    (h4 : 3 < argv.length) (hc : BeginsDashC argv[2]) :
    dispatch env pre argv = execOrReport env pre "/system/bin/sh" (argv[0] :: argv.drop 2)
      (fun e => "su: exec(sh) failed for " ++ argv[2] ++ " Error:" ++ env.strerror e ++ "\n") := by
  unfold dispatch
  have h : ¬ argv.length = 3 := by omega
  rw [dif_neg h, dif_pos h4, if_pos ((cstr_beginsDashC _).mpr hc), shArgv_eq argv (by omega),
    cvec_terminated]

theorem dispatch_default (env : Env) (pre : List Event) (argv : List String)
    (h2 : argv.length ≤ 2) :
    dispatch env pre argv =
      match env.execp "/system/bin/sh" ["sh"] with
      | .replaced => ⟨pre ++ [.exec "/system/bin/sh" ["sh"]], .replaced⟩
      | .failed _ =>
        ⟨pre ++ [.exec "/system/bin/sh" ["sh"], .stderr "su: exec failed\n"], .returned 1⟩ := by
  unfold dispatch
  have h : ¬ argv.length = 3 := by omega
  have h4 : ¬ argv.length > 3 := by omega
  rw [dif_neg h, dif_neg h4]

theorem execOrReport_shape (env : Env) (pre : List Event) (file : String) (args : List String)
    (msg : Int → String) :
    (env.execp file args = .replaced ∧
        execOrReport env pre file args msg = ⟨pre ++ [.exec file args], .replaced⟩) ∨
      (∃ e, env.execp file args = .failed e ∧
        execOrReport env pre file args msg =
          ⟨pre ++ [.exec file args, .stderr (msg e.val)],
            .returned (-(errnoAtReturn env (msg e.val) e).val)⟩) := by
  unfold execOrReport
  cases h : env.execp file args with
  | replaced => exact Or.inl ⟨rfl, rfl⟩
  | failed e => exact Or.inr ⟨e, rfl, rfl⟩

/-- Every dispatch is one exec attempt after the calls `pre`; when the call
comes back, one diagnostic follows and `main` returns `-errno` or `1`, not 0. -/
theorem dispatch_shape (env : Env) (pre : List Event) (argv : List String) :
    ∃ f a, (env.execp f a = .replaced ∧
        dispatch env pre argv = ⟨pre ++ [.exec f a], .replaced⟩) ∨
      (∃ e m r, env.execp f a = .failed e ∧ r ≠ 0 ∧
        dispatch env pre argv = ⟨pre ++ [.exec f a, .stderr m], .returned r⟩) := by
  have key : ∀ file args msg, ∃ f a, (env.execp f a = .replaced ∧
        execOrReport env pre file args msg = ⟨pre ++ [.exec f a], .replaced⟩) ∨
      (∃ e m r, env.execp f a = .failed e ∧ r ≠ 0 ∧
        execOrReport env pre file args msg =
          ⟨pre ++ [.exec f a, .stderr m], .returned r⟩) := by
    intro file args msg
    refine ⟨file, args, ?_⟩
    rcases execOrReport_shape env pre file args msg with h | ⟨e, he, h⟩
    · exact Or.inl h
    · have hp := (errnoAtReturn env (msg e.val) e).property
      exact Or.inr ⟨e, msg e.val, _, he, by omega, h⟩
  unfold dispatch
  split
  · exact key _ _ _
  · split
    · split
      · exact key _ _ _
      · exact key _ _ _
    · refine ⟨"/system/bin/sh", ["sh"], ?_⟩
      cases h : env.execp "/system/bin/sh" ["sh"] with
      | replaced => exact Or.inl ⟨rfl, rfl⟩
      | failed e => exact Or.inr ⟨e, _, 1, rfl, by decide, rfl⟩

theorem dispatch_execs (env : Env) (pre : List Event) (argv : List String) :
    ∃ f a, (dispatch env pre argv).execs = pre.filter Event.isExec ++ [.exec f a] := by
  obtain ⟨f, a, h⟩ := dispatch_shape env pre argv
  refine ⟨f, a, ?_⟩
  rcases h with ⟨_, h⟩ | ⟨e, m, r, _, _, h⟩ <;> simp [h, Run.execs, Event.isExec]

/-! ## The claims on the gate, the switch and the dispatch -/

/-- C1: the run proceeds to the identity switch (its first call is `setgid` with the
resolved gid) if and only if the caller uid is `AID_ROOT` or `AID_SHELL`; for every other
caller `main` returns 1 and its trace has no `setgid`, no `setuid` and no exec, whatever
the arguments are. -/
theorem C1_authorization_gate (env : Env) (argv : List String) :
    ((∃ rest, (main env argv).trace = .setgid (toUnsigned (resolve env argv).2) :: rest) ↔
        ((env.getuid.val : Int) = AID_ROOT ∨ (env.getuid.val : Int) = AID_SHELL)) ∧
      (¬ ((env.getuid.val : Int) = AID_ROOT ∨ (env.getuid.val : Int) = AID_SHELL) →
        (main env argv).outcome = .returned 1 ∧
          ∀ ev ∈ (main env argv).trace,
            ev.isSetgid = false ∧ ev.isSetuid = false ∧ ev.isExec = false) := by
  constructor
  · constructor
    · rintro ⟨rest, h⟩
      by_contra hn
      rw [main_denied env argv hn] at h
      simp at h
    · intro ha
      rw [main_allowed env argv ha]
      split
      · exact ⟨_, rfl⟩
      · split
        · exact ⟨_, rfl⟩
        · obtain ⟨f, a, h⟩ := dispatch_shape env
            [.setgid (toUnsigned (resolve env argv).2),
              .setuid (toUnsigned (resolve env argv).1)] argv
          rcases h with ⟨_, h⟩ | ⟨e, m, r, _, _, h⟩ <;> rw [h] <;> exact ⟨_, rfl⟩
  · intro hn
    rw [main_denied env argv hn]
    simp [Event.isSetgid, Event.isSetuid, Event.isExec]

/-- C2: in every run that passes the gate, `setgid` with the resolved gid is the first
call and it is made once; a `setuid` call is `setuid` with the resolved uid, is made only
when `setgid` returned 0, and then comes right after it; and when either call fails `main`
writes "su: permission denied" to stderr as its last call, returns 1 and attempts no
exec. -/
theorem C2_identity_switch (env : Env) (argv : List String) (ha : Allowed env) :
    (∃ rest, (main env argv).trace = .setgid (toUnsigned (resolve env argv).2) :: rest ∧
        ∀ ev ∈ rest, ev.isSetgid = false) ∧
      (∀ ev ∈ (main env argv).trace, ev.isSetuid = true →
        ev = .setuid (toUnsigned (resolve env argv).1) ∧
          env.setgid (toUnsigned (resolve env argv).2) = 0) ∧
      (env.setgid (toUnsigned (resolve env argv).2) = 0 →
        ∃ rest, (main env argv).trace = .setgid (toUnsigned (resolve env argv).2) ::
          .setuid (toUnsigned (resolve env argv).1) :: rest ∧
          ∀ ev ∈ rest, ev.isSetuid = false) ∧
      (env.setgid (toUnsigned (resolve env argv).2) ≠ 0 ∨
          env.setuid (toUnsigned (resolve env argv).1) ≠ 0 →
        (main env argv).outcome = .returned 1 ∧
          (main env argv).trace.getLast? = some (.stderr "su: permission denied\n") ∧
          (main env argv).execs = []) := by
  rw [main_allowed env argv ha]
  by_cases hg : env.setgid (toUnsigned (resolve env argv).2) = 0
  · by_cases hu : env.setuid (toUnsigned (resolve env argv).1) = 0
    · obtain ⟨f, a, h⟩ := dispatch_shape env
        [.setgid (toUnsigned (resolve env argv).2),
          .setuid (toUnsigned (resolve env argv).1)] argv
      rcases h with ⟨_, h⟩ | ⟨e, m, r, _, _, h⟩ <;>
        simp [hg, hu, h, Event.isSetgid, Event.isSetuid]
    · simp [hg, hu, Event.isSetgid, Event.isSetuid, Run.execs, Event.isExec]
  · simp [hg, Event.isSetgid, Event.isSetuid, Run.execs, Event.isExec]

/-- C3: for an allowed caller whose identity switch succeeds, with `argc >= 3` and not
(`argc > 3` and `argv[2]` beginning with `-c`), the single exec attempted searches the
path for `argv[2]` with the argument vector `argv[2], ..., argv[argc-1]`: it has
`argc - 2` entries, the array handed to the call ends with the null terminator, and for
`argc = 3` the vector is `[argv[2]]`. -/
theorem C3_direct_command (env : Env) (argv : List String) (ha : Allowed env)
    (hs : SwitchOk env argv) (h3 : 3 ≤ argv.length)
    (hc : ¬ (argv.length > 3 ∧ BeginsDashC argv[2])) :
    (main env argv).execs = [.exec argv[2] (argv.drop 2)] ∧
      (argv.drop 2).length = argv.length - 2 ∧
      exec_args argv = (argv.drop 2).map some ++ [none] ∧
      (argv.length = 3 → argv.drop 2 = [argv[2]]) := by
  refine ⟨?_, by simp, exec_args_eq argv (by omega), drop_two_of_length_three argv⟩
  rw [main_switched env argv ha hs, dispatch_direct env _ argv h3 hc, execOrReport_execs]
  simp [Event.isExec]

/-- C4: for an allowed caller whose identity switch succeeds, with `argc > 3` and
`argv[2]` beginning with `-c`, the single exec attempted is of "/system/bin/sh" with the
argument vector `argv[0], argv[2], ..., argv[argc-1]`: the identity token is gone,
argument 0 is the invocation name and the arguments from the `-c` flag on are forwarded
unchanged and in order; the array handed to the call ends with the null terminator. -/
theorem C4_dash_c_shim (env : Env) (argv : List String) (ha : Allowed env)
    (hs : SwitchOk env argv) (h4 : 3 < argv.length) (hc : BeginsDashC argv[2]) :
    (main env argv).execs = [.exec "/system/bin/sh" (argv[0] :: argv.drop 2)] ∧
      shArgv argv = (argv[0] :: argv.drop 2).map some ++ [none] := by
  refine ⟨?_, shArgv_eq argv (by omega)⟩
  rw [main_switched env argv ha hs, dispatch_dashC env _ argv h4 hc, execOrReport_execs]
  simp [Event.isExec]

/-- C5, amended: for an allowed caller with `argc <= 2` whose identity switch succeeds, the calls
of the run start with `setgid` and `setuid` of the resolved identity followed by the exec
of "/system/bin/sh" with the argument vector `["sh"]`, which is the single exec attempted;
the resolved identity is `(0, 0)` when `argc < 2`, and `(1000, 1000)` for `prog 1000`
where `1000` is no account name. -/
theorem C5_default_shell (env : Env) (argv : List String) (ha : Allowed env)
    (hs : SwitchOk env argv) (h2 : argv.length ≤ 2) :
    (main env argv).execs = [.exec "/system/bin/sh" ["sh"]] ∧
      (∃ rest, (main env argv).trace =
        [.setgid (toUnsigned (resolve env argv).2), .setuid (toUnsigned (resolve env argv).1),
          .exec "/system/bin/sh" ["sh"]] ++ rest) ∧
      (argv.length < 2 → resolve env argv = (0, 0)) ∧
      (∀ prog, argv = [prog, "1000"] → env.getpwnam "1000" = none →
        resolve env argv = (1000, 1000) ∧ toUnsigned (resolve env argv).1 = 1000 ∧
          toUnsigned (resolve env argv).2 = 1000) := by
  refine ⟨?_, ?_, ?_, ?_⟩
  · rw [main_switched env argv ha hs, dispatch_default env _ argv h2]
    cases env.execp "/system/bin/sh" ["sh"] <;> simp [Run.execs, Event.isExec]
  · rw [main_switched env argv ha hs, dispatch_default env _ argv h2]
    cases env.execp "/system/bin/sh" ["sh"] <;> simp
  · intro h
    unfold resolve
    rw [dif_pos h]
  · rintro prog rfl hn
    have hr : resolve env [prog, "1000"] = (1000, 1000) := by
      unfold resolve
      simp only [List.length_cons, List.length_nil, Nat.reduceAdd, Nat.lt_irrefl, dite_false,
        List.getElem_cons_succ, List.getElem_cons_zero, hn]
      decide
    rw [hr]
    exact ⟨rfl, by decide, by decide⟩

/-! ## `atoi` on numerals and on tokens without a digit -/

theorem isdigit_eq (c : Char) : isdigit c = c.isDigit := by
  unfold isdigit Char.isDigit Char.toNat
  rw [Bool.eq_iff_iff]
  simp [UInt32.le_def, Fin.le_def]
  rfl

theorem skipSpace_eq_dropWhile (s : List Char) : skipSpace s = s.dropWhile isspace := by
  induction s with
  | nil => rfl
  | cons c cs ih =>
    unfold skipSpace
    by_cases h : isspace c = true
    · simp [h, ih]
    · simp [h]

theorem isspace_of_isdigit (c : Char) (h : isdigit c = true) : isspace c = false := by
  unfold isdigit at h
  unfold isspace
  simp at h ⊢
  omega

theorem ne_sign_of_isdigit (c : Char) (h : isdigit c = true) : c ≠ '-' ∧ c ≠ '+' := by
  constructor <;>
  · rintro rfl
    revert h
    decide

theorem strtolDigits_no_digit (l : List Char) (acc : Nat)
    (h : ∀ c ∈ l.head?, isdigit c = false) : strtolDigits l acc = acc := by
  cases l with
  | nil => rfl
  | cons c cs =>
    have hc : isdigit c = false := h c (by simp)
    simp [strtolDigits, hc]

theorem strtolDigits_digits (l : List Char) (acc : Nat) (h : ∀ c ∈ l, isdigit c = true) :
    strtolDigits l acc = acc * 10 ^ l.length + decimalValue l := by
  induction l generalizing acc with
  | nil => simp [strtolDigits, decimalValue]
  | cons c cs ih =>
    have hc : isdigit c = true := h c (by simp)
    have hcs : ∀ d ∈ cs, isdigit d = true := fun d hd => h d (by simp [hd])
    have hv : decimalValue (c :: cs) = decimalValue cs + 10 ^ cs.length * digitValue c := by
      unfold decimalValue
      simp [Nat.ofDigits_append]
    rw [strtolDigits, if_pos hc, ih _ hcs, hv]
    unfold digitValue
    simp only [List.length_cons]
    ring

theorem strtol_no_digit (s : List Char)
    (h : ∀ c ∈ (afterSpaceAndSign s).head?, isdigit c = false) : strtol s = 0 := by
  unfold strtol
  unfold afterSpaceAndSign at h
  rw [skipSpace_eq_dropWhile]
  cases hd : s.dropWhile isspace with
  | nil => rfl
  | cons c cs =>
    rw [hd] at h
    simp only
    by_cases hm : c = '-'
    · have h2 : ∀ d ∈ cs.head?, isdigit d = false := by simpa [hm] using h
      simp [hm, strtolDigits_no_digit cs 0 h2]
    · by_cases hp : c = '+'
      · have h2 : ∀ d ∈ cs.head?, isdigit d = false := by simpa [hp] using h
        simp [hp, strtolDigits_no_digit cs 0 h2]
      · have h2 : ∀ d ∈ (c :: cs).head?, isdigit d = false := by simpa [hm, hp] using h
        simp [hm, hp, strtolDigits_no_digit (c :: cs) 0 h2]

theorem atoi_no_digit (s : String) (h : NoLeadingDigit s) : atoi s = 0 := by
  unfold atoi
  rw [strtol_no_digit s.data (by simpa [NoLeadingDigit, isdigit_eq] using h)]
  rfl

theorem strtol_digits (ds : List Char) (hne : ds ≠ []) (h : ∀ c ∈ ds, isdigit c = true) :
    strtol ds = min 2147483647 (decimalValue ds : Int) ∧
      strtol ('+' :: ds) = min 2147483647 (decimalValue ds : Int) ∧
      strtol ('-' :: ds) = max (-2147483648) (-(decimalValue ds : Int)) := by
  have hv : strtolDigits ds 0 = decimalValue ds := by
    rw [strtolDigits_digits ds 0 h]
    simp
  refine ⟨?_, ?_, ?_⟩
  · cases ds with
    | nil => exact absurd rfl hne
    | cons c cs =>
      have hc : isdigit c = true := h c (by simp)
      have hsp : skipSpace (c :: cs) = c :: cs := by
        simp [skipSpace, isspace_of_isdigit c hc]
      unfold strtol
      rw [hsp]
      simp only [(ne_sign_of_isdigit c hc).1, (ne_sign_of_isdigit c hc).2, if_false, hv]
  · have hsp : skipSpace ('+' :: ds) = '+' :: ds := by
      have hns : isspace '+' = false := by decide
      simp [skipSpace, hns]
    unfold strtol
    rw [hsp]
    have hpm : ('+' : Char) ≠ '-' := by decide
    simp only [hpm, if_false, if_true, hv]
  · have hsp : skipSpace ('-' :: ds) = '-' :: ds := by
      have hns : isspace '-' = false := by decide
      simp [skipSpace, hns]
    unfold strtol
    rw [hsp]
    simp only [if_true, hv]

/-- The value of `atoi` is an `int`: no token resolves to an integer outside the range of
`int`. -/
theorem atoi_range (s : String) : -2147483648 ≤ atoi s ∧ atoi s ≤ 2147483647 := by
  unfold atoi toInt
  omega

/-- The numeral of 4294967296 does not resolve to 4294967296. -/
theorem atoi_out_of_range :
    IsNumeral "4294967296" 4294967296 ∧ atoi "4294967296" = 2147483647 :=
  ⟨⟨['4', '2', '9', '4', '9', '6', '7', '2', '9', '6'], by decide, by decide,
    Or.inl ⟨rfl, by decide⟩⟩, by decide⟩

/-- On a numeral of an integer that fits an `int`, `atoi` yields that integer. -/
theorem atoi_numeral (s : String) (N : Int) (h : IsNumeral s N)
    (hlo : -2147483648 ≤ N) (hhi : N ≤ 2147483647) : atoi s = N := by
  obtain ⟨ds, hne, hd, hcase⟩ := h
  have hd2 : ∀ c ∈ ds, isdigit c = true := fun c hc => by rw [isdigit_eq]; exact hd c hc
  obtain ⟨h1, h2, h3⟩ := strtol_digits ds hne hd2
  unfold atoi
  rcases hcase with ⟨hs, hN⟩ | ⟨hs, hN⟩ | ⟨hs, hN⟩
  · rw [hs, h1, ← hN, min_eq_right hhi, toInt_of_range N hlo hhi]
  · rw [hs, h2, ← hN, min_eq_right hhi, toInt_of_range N hlo hhi]
  · rw [hs, h3, ← hN, max_eq_right hlo, toInt_of_range N hlo hhi]

/-! ## Numerals as printed -/

theorem digitChar_spec :
    ∀ k < 10, (Nat.digitChar k).isDigit = true ∧ digitValue (Nat.digitChar k) = k := by
  decide

theorem decimalValue_snoc (X : List Char) (d : Char) :
    decimalValue (X ++ [d]) = decimalValue X * 10 + digitValue d := by
  unfold decimalValue
  simp [Nat.ofDigits_cons]
  ring

theorem toDigitsCore_spec (fuel : Nat) : ∀ (n : Nat) (ds : List Char), n < fuel →
    ∃ X, X ≠ [] ∧ (∀ c ∈ X, c.isDigit = true) ∧ decimalValue X = n ∧
      Nat.toDigitsCore 10 fuel n ds = X ++ ds := by
  induction fuel with
  | zero => intro n ds h; omega
  | succ fuel ih =>
    intro n ds h
    have hd := digitChar_spec (n % 10) (Nat.mod_lt _ (by decide))
    unfold Nat.toDigitsCore
    by_cases h0 : n / 10 = 0
    · refine ⟨[Nat.digitChar (n % 10)], by simp, by simpa using hd.1, ?_, by simp [h0]⟩
      have : decimalValue [Nat.digitChar (n % 10)] = digitValue (Nat.digitChar (n % 10)) := by
        simp [decimalValue]
      rw [this, hd.2]
      omega
    · obtain ⟨X, hne, hX, hv, he⟩ := ih (n / 10) (Nat.digitChar (n % 10) :: ds) (by omega)
      refine ⟨X ++ [Nat.digitChar (n % 10)], by simp, ?_, ?_, ?_⟩
      · intro c hc
        rcases List.mem_append.mp hc with hc | hc
        · exact hX c hc
        · rw [List.mem_singleton.mp hc]; exact hd.1
      · rw [decimalValue_snoc, hv, hd.2]; omega
      · simp [h0, he]

/-- The decimal printing of a natural number is a numeral of it. -/
theorem isNumeral_toString_nat (n : Nat) : IsNumeral (toString n) n := by
  obtain ⟨X, hne, hX, hv, he⟩ := toDigitsCore_spec (n + 1) n [] (by omega)
  refine ⟨X, hne, hX, Or.inl ⟨?_, by rw [hv]⟩⟩
  show (Nat.repr n).data = X
  unfold Nat.repr Nat.toDigits
  rw [he]
  simp [List.asString]

/-- The decimal printing of an integer is a numeral of it. -/
theorem isNumeral_toString (N : Int) : IsNumeral (toString N) N := by
  cases N with
  | ofNat m => exact isNumeral_toString_nat m
  | negSucc m =>
    obtain ⟨X, hne, hX, hv, he⟩ := toDigitsCore_spec (m + 1 + 1) (m + 1) [] (by omega)
    refine ⟨X, hne, hX, Or.inr (Or.inr ⟨?_, ?_⟩)⟩
    · show ("-" ++ Nat.repr (m + 1)).data = '-' :: X
      unfold Nat.repr Nat.toDigits
      rw [he]
      simp [List.asString]
    · rw [hv]; rfl
/-- Printing an integer that fits an `int` and reading it back with `atoi` gives the
integer. -/
theorem atoi_toString (N : Int) (hlo : -2147483648 ≤ N) (hhi : N ≤ 2147483647) :
    atoi (toString N) = N :=
  atoi_numeral _ N (isNumeral_toString N) hlo hhi

/-! ## The claims on identity resolution -/

/-- An allowed caller reaches `setgid` with the resolved gid as the first call, and when
that call succeeds `setuid` with the resolved uid is the second call. -/
theorem allowed_calls (env : Env) (argv : List String) (ha : Allowed env) :
    (∃ rest, (main env argv).trace = .setgid (toUnsigned (resolve env argv).2) :: rest) ∧
      (env.setgid (toUnsigned (resolve env argv).2) = 0 →
        ∃ rest, (main env argv).trace = .setgid (toUnsigned (resolve env argv).2) ::
          .setuid (toUnsigned (resolve env argv).1) :: rest) := by
  rw [main_allowed env argv ha]
  by_cases hg : env.setgid (toUnsigned (resolve env argv).2) = 0
  · by_cases hu : env.setuid (toUnsigned (resolve env argv).1) = 0
    · obtain ⟨f, a, h⟩ := dispatch_shape env
        [.setgid (toUnsigned (resolve env argv).2),
          .setuid (toUnsigned (resolve env argv).1)] argv
      rcases h with ⟨_, h⟩ | ⟨e, m, r, _, _, h⟩ <;> simp [hg, hu, h]
    · simp [hg, hu]
  · simp [hg]

theorem resolve_none (env : Env) (argv : List String) (h2 : 2 ≤ argv.length)
    (hn : env.getpwnam argv[1] = none) : resolve env argv = (atoi argv[1], atoi argv[1]) := by
  unfold resolve
  rw [dif_neg (by omega)]
  simp only [hn]

theorem resolve_some (env : Env) (argv : List String) (pw : Passwd) (h2 : 2 ≤ argv.length)
    (hpw : env.getpwnam argv[1] = some pw) :
    resolve env argv = (toInt (pw.pw_uid.val : Int), toInt (pw.pw_gid.val : Int)) := by
  unfold resolve
  rw [dif_neg (by omega)]
  simp only [hpw]

/-- C6, amended: for every identity token that is no known account name (`getpwnam`
returns no entry) and is a base-10 numeral of an integer `N` that fits an `int`, the
identity resolved by `main` is `(N, N)`; for an allowed caller `setgid` is called with `N`
converted to `gid_t` and, when it succeeds, `setuid` with `N` converted to `uid_t`; the
converted value is `N` itself when `N` is not negative. -/
theorem C6_numeric_token (env : Env) (argv : List String) (N : Int) (h2 : 2 ≤ argv.length)
    (hn : env.getpwnam argv[1] = none) (hnum : IsNumeral argv[1] N)
    (hlo : -2147483648 ≤ N) (hhi : N ≤ 2147483647) :
    resolve env argv = (N, N) ∧
      (0 ≤ N → (toUnsigned N : Int) = N) ∧
      (Allowed env →
        (∃ rest, (main env argv).trace = .setgid (toUnsigned N) :: rest) ∧
          (env.setgid (toUnsigned N) = 0 →
            ∃ rest, (main env argv).trace =
              .setgid (toUnsigned N) :: .setuid (toUnsigned N) :: rest)) := by
  have hr : resolve env argv = (N, N) := by
    rw [resolve_none env argv h2 hn, atoi_numeral _ N hnum hlo hhi]
  refine ⟨hr, fun h0 => toUnsigned_of_nonneg N h0 (by omega), fun ha => ?_⟩
  have h := allowed_calls env argv ha
  rw [hr] at h
  exact h

/-- C7: for every identity token for which `getpwnam` returns an entry, the resolved
identity is that entry's `(pw_uid, pw_gid)`, whatever the token is (a numeral too): the
`int` variables hold the two fields, the values handed to `setuid` and `setgid` are
exactly `pw_uid` and `pw_gid`, and an allowed caller calls `setgid(pw_gid)` first and,
when it succeeds, `setuid(pw_uid)` next. -/
theorem C7_account_name (env : Env) (argv : List String) (pw : Passwd)
    (h2 : 2 ≤ argv.length) (hpw : env.getpwnam argv[1] = some pw) :
    resolve env argv = (toInt (pw.pw_uid.val : Int), toInt (pw.pw_gid.val : Int)) ∧
      toUnsigned (resolve env argv).1 = pw.pw_uid.val ∧
      toUnsigned (resolve env argv).2 = pw.pw_gid.val ∧
      (Allowed env →
        (∃ rest, (main env argv).trace = .setgid pw.pw_gid.val :: rest) ∧
          (env.setgid pw.pw_gid.val = 0 →
            ∃ rest, (main env argv).trace =
              .setgid pw.pw_gid.val :: .setuid pw.pw_uid.val :: rest)) := by
  have hr := resolve_some env argv pw h2 hpw
  have hu : toUnsigned (resolve env argv).1 = pw.pw_uid.val := by
    rw [hr]; exact toUnsigned_toInt _
  have hg : toUnsigned (resolve env argv).2 = pw.pw_gid.val := by
    rw [hr]; exact toUnsigned_toInt _
  refine ⟨hr, hu, hg, fun ha => ?_⟩
  have h := allowed_calls env argv ha
  rw [hu, hg] at h
  exact h

/-- C10, amended: for every identity token that is no known account name and does not
begin, after optional white space and sign, with a decimal digit, the resolved identity is
`(0, 0)`; no resolution error is reported: a caller outside the allowed set gets the
gate diagnostic alone, and an allowed caller calls `setgid(0)` first and, when that call
succeeds, `setuid(0)` next. -/
theorem C10_lenient_fallback (env : Env) (argv : List String) (h2 : 2 ≤ argv.length)
    (hn : env.getpwnam argv[1] = none) (hd : NoLeadingDigit argv[1]) :
    resolve env argv = (0, 0) ∧
      (¬ Allowed env → (main env argv).trace =
        [.stderr ("su: uid " ++ toString (toInt (env.getuid.val : Int)) ++
          " not allowed to su\n")]) ∧
      (Allowed env →
        (∃ rest, (main env argv).trace = .setgid 0 :: rest) ∧
          (env.setgid 0 = 0 →
            ∃ rest, (main env argv).trace = .setgid 0 :: .setuid 0 :: rest)) := by
  have hr : resolve env argv = (0, 0) := by
    rw [resolve_none env argv h2 hn, atoi_no_digit _ hd]
  refine ⟨hr, fun hna => by rw [main_denied env argv hna], fun ha => ?_⟩
  have h := allowed_calls env argv ha
  rw [hr] at h
  exact h

/-! ## The claims on exec failure -/

theorem errnoAtReturn_unchanged (env : Env) (text : String) (e : Errno)
    (h : env.errnoAfterReport text = none) : errnoAtReturn env text e = e := by
  unfold errnoAtReturn
  rw [h]

/-- When the exec attempted after `pre` (calls that are no exec) is `f` with `a` and that
call fails with `e`, the attempt is the one `execOrReport` makes, the diagnostic for `e`
is the last call and `-errno` is returned, with `errno` as the report left it. -/
theorem execOrReport_failed (env : Env) (pre : List Event) (file : String)
    (args : List String) (msg : Int → String) (f : String) (a : List String) (e : Errno)
    (hpre : ∀ ev ∈ pre, ev.isExec = false)
    (hin : Event.exec f a ∈ (execOrReport env pre file args msg).trace)
    (hfail : env.execp f a = .failed e) :
    (f = file ∧ a = args) ∧
      execOrReport env pre file args msg =
        ⟨pre ++ [.exec file args, .stderr (msg e.val)],
          .returned (-(errnoAtReturn env (msg e.val) e).val)⟩ := by
  have hnot : Event.exec f a ∉ pre := fun hm => by simpa [Event.isExec] using hpre _ hm
  have hfa : f = file ∧ a = args := by
    rcases execOrReport_shape env pre file args msg with ⟨_, h⟩ | ⟨e2, _, h⟩
    · rw [h] at hin
      simpa [hnot] using hin
    · rw [h] at hin
      simpa [hnot] using hin
  refine ⟨hfa, ?_⟩
  obtain ⟨rfl, rfl⟩ := hfa
  unfold execOrReport
  rw [hfail]

theorem dispatch_default_failed (env : Env) (pre : List Event) (argv : List String)
    (f : String) (a : List String) (e : Errno) (h2 : argv.length ≤ 2)
    (hpre : ∀ ev ∈ pre, ev.isExec = false)
    (hin : Event.exec f a ∈ (dispatch env pre argv).trace)
    (hfail : env.execp f a = .failed e) :
    dispatch env pre argv =
      ⟨pre ++ [.exec "/system/bin/sh" ["sh"], .stderr "su: exec failed\n"], .returned 1⟩ := by
  have hnot : Event.exec f a ∉ pre := fun hm => by simpa [Event.isExec] using hpre _ hm
  rw [dispatch_default env pre argv h2] at hin ⊢
  cases hx : env.execp "/system/bin/sh" ["sh"] with
  | failed e2 => rfl
  | replaced =>
    rw [hx] at hin
    have hfa : f = "/system/bin/sh" ∧ a = ["sh"] := by simpa [hnot] using hin
    rw [hfa.1, hfa.2, hx] at hfail
    exact absurd hfail (by simp)

/-- An exec attempt in the trace of `main` means that the caller was allowed and that
both calls of the switch succeeded, so that `main` went on to the dispatch. -/
theorem exec_in_trace (env : Env) (argv : List String) (f : String) (a : List String)
    (hin : Event.exec f a ∈ (main env argv).trace) :
    main env argv = dispatch env [.setgid (toUnsigned (resolve env argv).2),
      .setuid (toUnsigned (resolve env argv).1)] argv := by
  by_cases ha : Allowed env
  · rw [main_allowed env argv ha] at hin ⊢
    by_cases hg : env.setgid (toUnsigned (resolve env argv).2) = 0
    · by_cases hu : env.setuid (toUnsigned (resolve env argv).1) = 0
      · simp [hg, hu]
      · simp [hg, hu] at hin
    · simp [hg] at hin
  · rw [main_denied env argv ha] at hin
    simp at hin

/-- C8, amended: when the exec chosen by dispatch rule 1, 2 or 3 (`argc >= 3`) fails with
error code `e`, the last call of `main` writes to stderr the diagnostic of that rule, which
ends with `strerror(e)` and a newline, and, when reporting that diagnostic leaves `errno`
as it was, `main` returns `-e`; when the default-shell exec of rule 4 (`argc <= 2`) fails,
`main` writes "su: exec failed" and returns 1. -/
theorem C8_exec_failure (env : Env) (argv : List String) (f : String) (a : List String)
    (e : Errno) (hin : Event.exec f a ∈ (main env argv).trace)
    (hfail : env.execp f a = .failed e) :
    (∀ h3 : 3 ≤ argv.length,
      (argv.length > 3 ∧ BeginsDashC argv[2] →
        (main env argv).trace.getLast? = some (.stderr
          ("su: exec(sh) failed for " ++ argv[2] ++ " Error:" ++ env.strerror e.val ++ "\n")) ∧
        (env.errnoAfterReport
            ("su: exec(sh) failed for " ++ argv[2] ++ " Error:" ++ env.strerror e.val ++ "\n")
              = none →
          (main env argv).outcome = .returned (-e.val))) ∧
      (¬ (argv.length > 3 ∧ BeginsDashC argv[2]) →
        (main env argv).trace.getLast? = some (.stderr
          ("su: exec failed for " ++ argv[2] ++ " Error:" ++ env.strerror e.val ++ "\n")) ∧
        (env.errnoAfterReport
            ("su: exec failed for " ++ argv[2] ++ " Error:" ++ env.strerror e.val ++ "\n")
              = none →
          (main env argv).outcome = .returned (-e.val)))) ∧
      (argv.length ≤ 2 →
        (main env argv).outcome = .returned 1 ∧
          (main env argv).trace.getLast? = some (.stderr "su: exec failed\n")) := by
  have hm := exec_in_trace env argv f a hin
  rw [hm] at hin ⊢
  have hpre : ∀ ev ∈ [Event.setgid (toUnsigned (resolve env argv).2),
      Event.setuid (toUnsigned (resolve env argv).1)], ev.isExec = false := by
    simp [Event.isExec]
  constructor
  · intro h3
    constructor
    · intro hc
      rw [dispatch_dashC env _ argv hc.1 hc.2] at hin ⊢
      obtain ⟨_, h⟩ := execOrReport_failed env _ _ _ _ f a e hpre hin hfail
      rw [h]
      refine ⟨by simp, fun hw => ?_⟩
      rw [errnoAtReturn_unchanged env _ e hw]
    · intro hc
      rw [dispatch_direct env _ argv h3 hc] at hin ⊢
      obtain ⟨_, h⟩ := execOrReport_failed env _ _ _ _ f a e hpre hin hfail
      rw [h]
      refine ⟨by simp, fun hw => ?_⟩
      rw [errnoAtReturn_unchanged env _ e hw]
  · intro h2
    rw [dispatch_default_failed env _ argv f a e h2 hpre hin hfail]
    simp

/-- C9: in every run of `main` at most one exec is attempted; every status `main`
returns is non-zero; and when `argc >= 3` and the exec attempted fails (it returned `-1`
with a positive error code), the calls of `main` are the two of the switch, that one exec
and one diagnostic, and `main` returns a non-zero status: the default-shell exec of
rule 4 is not attempted. -/
theorem C9_no_fall_through (env : Env) (argv : List String) :
    (main env argv).execs.length ≤ 1 ∧
      (∀ r, (main env argv).outcome = .returned r → r ≠ 0) ∧
      (3 ≤ argv.length → ∀ f a e, Event.exec f a ∈ (main env argv).trace →
        env.execp f a = .failed e →
          ∃ m r, (main env argv).trace =
              [.setgid (toUnsigned (resolve env argv).2),
                .setuid (toUnsigned (resolve env argv).1), .exec f a, .stderr m] ∧
            (main env argv).outcome = .returned r ∧ r ≠ 0) := by
  refine ⟨?_, ?_, ?_⟩
  · by_cases ha : Allowed env
    · rw [main_allowed env argv ha]
      split
      · simp [Run.execs, Event.isExec]
      · split
        · simp [Run.execs, Event.isExec]
        · obtain ⟨f, a, h⟩ := dispatch_execs env
            [.setgid (toUnsigned (resolve env argv).2),
              .setuid (toUnsigned (resolve env argv).1)] argv
          rw [h]
          simp [Event.isExec]
    · rw [main_denied env argv ha]
      simp [Run.execs, Event.isExec]
  · intro r hr
    by_cases ha : Allowed env
    · rw [main_allowed env argv ha] at hr
      split at hr
      · simp at hr; omega
      · split at hr
        · simp at hr; omega
        · obtain ⟨f, a, h⟩ := dispatch_shape env
            [.setgid (toUnsigned (resolve env argv).2),
              .setuid (toUnsigned (resolve env argv).1)] argv
          rcases h with ⟨_, h⟩ | ⟨e, m, r2, he, hr2, h⟩
          · rw [h] at hr
            simp at hr
          · rw [h] at hr
            simp at hr
            omega
    · rw [main_denied env argv ha] at hr
      simp at hr
      omega
  · intro h3 f a e hin hfail
    have hm := exec_in_trace env argv f a hin
    rw [hm] at hin ⊢
    have hpre : ∀ ev ∈ [Event.setgid (toUnsigned (resolve env argv).2),
        Event.setuid (toUnsigned (resolve env argv).1)], ev.isExec = false := by
      simp [Event.isExec]
    by_cases hc : argv.length > 3 ∧ BeginsDashC argv[2]
    · rw [dispatch_dashC env _ argv hc.1 hc.2] at hin ⊢
      obtain ⟨⟨rfl, rfl⟩, h⟩ := execOrReport_failed env _ _ _ _ f a e hpre hin hfail
      rw [h]
      have hp := (errnoAtReturn env
        ("su: exec(sh) failed for " ++ argv[2] ++ " Error:" ++ env.strerror e.val ++ "\n")
        e).property
      exact ⟨_, _, rfl, rfl, by omega⟩
    · rw [dispatch_direct env _ argv h3 hc] at hin ⊢
      obtain ⟨⟨rfl, rfl⟩, h⟩ := execOrReport_failed env _ _ _ _ f a e hpre hin hfail
      rw [h]
      have hp := (errnoAtReturn env
        ("su: exec failed for " ++ argv[2] ++ " Error:" ++ env.strerror e.val ++ "\n")
        e).property
      exact ⟨_, _, rfl, rfl, by omega⟩

/-! ## The claims at concrete runs -/

/-- Root runs `su 1000`: `setgid(1000)`, then `setuid(1000)`, and no other `setuid`. -/
theorem C2_identity_switch_witness :
    Allowed hostRoot ∧ hostRoot.setgid (toUnsigned (resolve hostRoot ["su", "1000"]).2) = 0 ∧
      ∃ rest, (main hostRoot ["su", "1000"]).trace =
        .setgid (toUnsigned (resolve hostRoot ["su", "1000"]).2) ::
          .setuid (toUnsigned (resolve hostRoot ["su", "1000"]).1) :: rest ∧
          ∀ ev ∈ rest, ev.isSetuid = false :=
  ⟨by decide, by decide,
    (C2_identity_switch hostRoot ["su", "1000"] (by decide)).2.2.1 (by decide)⟩

/-- Root runs `su 1000 ls -l /tmp`: the exec is of `ls` with `["ls", "-l", "/tmp"]`. -/
theorem C3_direct_command_witness :
    Allowed hostRoot ∧ SwitchOk hostRoot ["su", "1000", "ls", "-l", "/tmp"] ∧
      ¬ (["su", "1000", "ls", "-l", "/tmp"].length > 3 ∧ BeginsDashC "ls") ∧
      (main hostRoot ["su", "1000", "ls", "-l", "/tmp"]).execs =
        [.exec "ls" ["ls", "-l", "/tmp"]] :=
  have hc : ¬ (["su", "1000", "ls", "-l", "/tmp"].length > 3 ∧ BeginsDashC "ls") := by
    rintro ⟨_, t, ht⟩
    simp at ht
  ⟨by decide, by decide, hc,
    (C3_direct_command hostRoot ["su", "1000", "ls", "-l", "/tmp"] (by decide) (by decide)
      (by decide) hc).1⟩

/-- Root runs `su 1000 -c "echo hi"`: the exec is of the shell with
`["su", "-c", "echo hi"]`. -/
theorem C4_dash_c_shim_witness :
    Allowed hostRoot ∧ SwitchOk hostRoot ["su", "1000", "-c", "echo hi"] ∧ BeginsDashC "-c" ∧
      (main hostRoot ["su", "1000", "-c", "echo hi"]).execs =
        [.exec "/system/bin/sh" ["su", "-c", "echo hi"]] :=
  ⟨by decide, by decide, ⟨[], rfl⟩,
    (C4_dash_c_shim hostRoot ["su", "1000", "-c", "echo hi"] (by decide) (by decide)
      (by decide) ⟨[], rfl⟩).1⟩

/-- Root runs `su 1000`: the exec is of the shell as `sh`, under the identity
`(1000, 1000)`. -/
theorem C5_default_shell_witness :
    Allowed hostRoot ∧ SwitchOk hostRoot ["su", "1000"] ∧
      (main hostRoot ["su", "1000"]).execs = [.exec "/system/bin/sh" ["sh"]] ∧
      resolve hostRoot ["su", "1000"] = (1000, 1000) :=
  ⟨by decide, by decide,
    (C5_default_shell hostRoot ["su", "1000"] (by decide) (by decide) (by decide)).1,
    ((C5_default_shell hostRoot ["su", "1000"] (by decide) (by decide) (by decide)).2.2.2
      "su" rfl rfl).1⟩

/-- On a host with an account named `1000` of uid 5 and gid 6, root runs `su 1000` and
the switch succeeds: the shell is run as `sh`, under the identity `(5, 6)`, not
`(1000, 1000)`. -/
theorem C5_account_named_1000_counterexample :
    Allowed hostNumericAccount ∧ SwitchOk hostNumericAccount ["su", "1000"] ∧
      ["su", "1000"].length ≤ 2 ∧
      resolve hostNumericAccount ["su", "1000"] = (5, 6) ∧
      resolve hostNumericAccount ["su", "1000"] ≠ (1000, 1000) ∧
      (main hostNumericAccount ["su", "1000"]).trace =
        [.setgid 6, .setuid 5, .exec "/system/bin/sh" ["sh"]] :=
  ⟨by decide, by decide, by decide, by decide, by decide, by decide⟩

/-- The token `1000`, no account name on this host, resolves to `(1000, 1000)`. -/
theorem C6_numeric_token_witness :
    hostRoot.getpwnam "1000" = none ∧ IsNumeral "1000" 1000 ∧
      resolve hostRoot ["su", "1000"] = (1000, 1000) :=
  have hnum : IsNumeral "1000" 1000 :=
    ⟨['1', '0', '0', '0'], by decide, by decide, Or.inl ⟨rfl, by decide⟩⟩
  ⟨rfl, hnum,
    (C6_numeric_token hostRoot ["su", "1000"] 1000 (by decide) rfl hnum (by decide)
      (by decide)).1⟩

/-- On a host with an account named `1000` of uid 5 and gid 6, the numeral `1000`
resolves to `(5, 6)`, not to `(1000, 1000)`: root calls `setgid(6)` and `setuid(5)`.  And
where no token is an account name, the numeral of 4294967296, which no `int` holds, does
not resolve to `(4294967296, 4294967296)`. -/
theorem C6_numeral_is_account_counterexample :
    IsNumeral "1000" 1000 ∧
      resolve hostNumericAccount ["su", "1000"] = (5, 6) ∧
      resolve hostNumericAccount ["su", "1000"] ≠ (1000, 1000) ∧
      main hostNumericAccount ["su", "1000"] =
        ⟨[.setgid 6, .setuid 5, .exec "/system/bin/sh" ["sh"]], .replaced⟩ ∧
      IsNumeral "4294967296" 4294967296 ∧
      resolve hostRoot ["su", "4294967296"] ≠ (4294967296, 4294967296) :=
  ⟨⟨['1', '0', '0', '0'], by decide, by decide, Or.inl ⟨rfl, by decide⟩⟩, by decide,
    by decide, by decide,
    ⟨['4', '2', '9', '4', '9', '6', '7', '2', '9', '6'], by decide, by decide,
      Or.inl ⟨rfl, by decide⟩⟩, by decide⟩

/-- The account named `42` resolves to its entry `(10007, 10008)`, not to `(42, 42)`. -/
theorem C7_account_name_witness :
    hostAccounts.getpwnam "42" = some ⟨10007, 10008⟩ ∧
      resolve hostAccounts ["su", "42"] = (10007, 10008) ∧
      ∃ rest, (main hostAccounts ["su", "42"]).trace = .setgid 10008 :: .setuid 10007 :: rest :=
  ⟨rfl, (C7_account_name hostAccounts ["su", "42"] ⟨10007, 10008⟩ (by decide) rfl).1,
    ((C7_account_name hostAccounts ["su", "42"] ⟨10007, 10008⟩ (by decide) rfl).2.2.2
      (by decide)).2 (by decide)⟩

/-- The shell account runs `su 1000 nosuch` where every exec fails with code 2 and the
report leaves `errno` as it was: `main` returns `-2` after the diagnostic that carries the
description of the error. -/
theorem C8_exec_failure_witness :
    Event.exec "nosuch" ["nosuch"] ∈ (main hostNoFile ["su", "1000", "nosuch"]).trace ∧
      hostNoFile.execp "nosuch" ["nosuch"] = .failed ⟨2, by decide⟩ ∧
      (main hostNoFile ["su", "1000", "nosuch"]).trace.getLast? = some (.stderr
        "su: exec failed for nosuch Error:No such file or directory\n") ∧
      (main hostNoFile ["su", "1000", "nosuch"]).outcome = .returned (-2) :=
  ⟨by decide, rfl,
    (((C8_exec_failure hostNoFile ["su", "1000", "nosuch"] "nosuch" ["nosuch"]
      ⟨2, by decide⟩ (by decide) rfl).1 (by decide)).2
        (fun h => absurd h.1 (by decide))).1,
    (((C8_exec_failure hostNoFile ["su", "1000", "nosuch"] "nosuch" ["nosuch"]
      ⟨2, by decide⟩ (by decide) rfl).1 (by decide)).2
        (fun h => absurd h.1 (by decide))).2 rfl⟩

/-- With stderr closed, `su 1000 nosuch` returns `-9`, the negated error code of the
failed write, where the exec failed with code 2. -/
theorem main_closed_stderr :
    main hostClosedStderr ["su", "1000", "nosuch"] =
      ⟨[.setgid 1000, .setuid 1000, .exec "nosuch" ["nosuch"],
          .stderr "su: exec failed for nosuch Error:No such file or directory\n"],
        .returned (-9)⟩ := by
  decide

/-- The shell account runs `su` where the exec of the default shell fails with code 2:
`main` writes "su: exec failed", without the description of the error, and returns 1,
not `-2`. -/
theorem C8_default_shell_counterexample :
    hostNoFile.execp "/system/bin/sh" ["sh"] = .failed ⟨2, by decide⟩ ∧
      hostNoFile.strerror 2 = "No such file or directory" ∧
      main hostNoFile ["su"] =
        ⟨[.setgid 0, .setuid 0, .exec "/system/bin/sh" ["sh"], .stderr "su: exec failed\n"],
          .returned 1⟩ ∧
      (main hostNoFile ["su"]).outcome ≠ .returned (-2) :=
  ⟨rfl, by decide, by decide, by decide⟩

/-- With stderr closed and every exec failing with code 2, `su 1000 ls` attempts one
exec and returns a non-zero status. -/
theorem C9_no_fall_through_witness :
    (main hostClosedStderr ["su", "1000", "ls"]).execs.length ≤ 1 ∧
      ∀ r, (main hostClosedStderr ["su", "1000", "ls"]).outcome = .returned r → r ≠ 0 :=
  ⟨(C9_no_fall_through hostClosedStderr ["su", "1000", "ls"]).1,
    (C9_no_fall_through hostClosedStderr ["su", "1000", "ls"]).2.1⟩

/-- The token `abc` resolves to `(0, 0)`, and root calls `setgid(0)`, then `setuid(0)`. -/
theorem C10_lenient_fallback_witness :
    hostRoot.getpwnam "abc" = none ∧ NoLeadingDigit "abc" ∧
      resolve hostRoot ["su", "abc"] = (0, 0) ∧
      ∃ rest, (main hostRoot ["su", "abc"]).trace = .setgid 0 :: .setuid 0 :: rest :=
  ⟨rfl, by decide,
    (C10_lenient_fallback hostRoot ["su", "abc"] (by decide) rfl (by decide)).1,
    ((C10_lenient_fallback hostRoot ["su", "abc"] (by decide) rfl (by decide)).2.2
      (by decide)).2 (by decide)⟩

/-- The shell account runs `su abc` where `setgid` is refused: the token resolves to `(0, 0)`,
`setgid(0)` is called, and `setuid(0)` is not. -/
theorem C10_setgid_refused_counterexample :
    Allowed hostNoSetgid ∧ hostNoSetgid.getpwnam "abc" = none ∧ NoLeadingDigit "abc" ∧
      main hostNoSetgid ["su", "abc"] =
        ⟨[.setgid 0, .stderr "su: permission denied\n"], .returned 1⟩ ∧
      Event.setuid 0 ∉ (main hostNoSetgid ["su", "abc"]).trace :=
  ⟨by decide, rfl, by decide, by decide, by decide⟩

end Su
